import Mathlib

/-!
Verification of the light-ray simulation core (src/src/App.tsx).

The definitions below are a shallow embedding of the TypeScript source:
JavaScript numbers are modelled as real numbers, nullable results as
`Option`, and the bounded `for` loop of `traceRay` as structural recursion
on the remaining bounce budget (fuel).
-/

namespace LightRay

open Classical

structure Vector2 where
  x : ℝ
  y : ℝ

def add (v1 v2 : Vector2) : Vector2 := ⟨v1.x + v2.x, v1.y + v2.y⟩

def sub (v1 v2 : Vector2) : Vector2 := ⟨v1.x - v2.x, v1.y - v2.y⟩

def scale (s : ℝ) (v : Vector2) : Vector2 := ⟨s * v.x, s * v.y⟩

def dot (v1 v2 : Vector2) : ℝ := v1.x * v2.x + v1.y * v2.y

/-- The `len` computed inside `normalize` in the source. -/
noncomputable def vecLen (v : Vector2) : ℝ := Real.sqrt (v.x * v.x + v.y * v.y)

noncomputable def normalize (v : Vector2) : Vector2 :=
  if vecLen v > 0 then ⟨v.x / vecLen v, v.y / vecLen v⟩ else ⟨0, 0⟩

noncomputable def rotate (v : Vector2) (angle : ℝ) : Vector2 :=
  ⟨v.x * Real.cos angle - v.y * Real.sin angle,
   v.x * Real.sin angle + v.y * Real.cos angle⟩

noncomputable def reflect (incident normal : Vector2) : Vector2 :=
  sub incident (scale 2 (scale (dot incident (normalize normal)) (normalize normal)))

noncomputable def refract (incident normal : Vector2) (eta : ℝ) : Option Vector2 :=
  let ni := normalize incident
  let nn := normalize normal
  let cosTheta := -dot ni nn
  if cosTheta < 0 then none
  else
    let sin2Theta := 1 - cosTheta * cosTheta
    let sin2Phi := eta * eta * sin2Theta
    if sin2Phi > 1 then none
    else
      let cosPhi := Real.sqrt (1 - sin2Phi)
      some (add (scale eta ni) (scale (-eta * cosTheta + cosPhi) nn))

inductive ObstacleType
  | prism
  | mirror
  | light
  | target
deriving DecidableEq

structure OpticObject where
  id : String
  type : ObstacleType
  position : Vector2
  rotation : ℝ
  size : ℝ

structure MirrorSegment where
  p1 : Vector2
  p2 : Vector2
  normal : Vector2

noncomputable def getMirrorSegment (obj : OpticObject) : MirrorSegment :=
  ⟨add obj.position (rotate ⟨-(obj.size / 2), 0⟩ obj.rotation),
   add obj.position (rotate ⟨obj.size / 2, 0⟩ obj.rotation),
   rotate ⟨0, 1⟩ obj.rotation⟩

structure LineIntersectResult where
  point : Option Vector2
  t : ℝ
  u : ℝ

noncomputable def lineIntersect (origin dir p1 p2 : Vector2) : LineIntersectResult :=
  let denom := dir.x * (p2.y - p1.y) - dir.y * (p2.x - p1.x)
  if |denom| < 1e-6 then ⟨none, -1, -1⟩
  else
    let t := ((origin.x - p1.x) * (p2.y - p1.y) - (origin.y - p1.y) * (p2.x - p1.x)) / denom
    let u := -(dir.x * (origin.y - p1.y) - dir.y * (origin.x - p1.x)) / denom
    if t ≥ 0 ∧ u ≥ 0 ∧ u ≤ 1 then ⟨some (add origin (scale t dir)), t, u⟩
    else ⟨none, -1, -1⟩

structure Segment where
  start : Vector2
  «end» : Vector2
  color : String

def COLORS : List String := ["red", "orange", "yellow", "green", "blue", "indigo", "violet"]

noncomputable def REFRACTION_INDICES : List ℝ :=
  [1.331, 1.337, 1.343, 1.352, 1.369, 1.381, 1.393]

/-- The candidate nearest hit tracked by the loop variables
`minT`, `hitNormal`, `hitPoint`, `hitType` of `traceRay`. -/
structure Hit where
  t : ℝ
  normal : Vector2
  point : Vector2
  htype : ObstacleType

/-- `t < minT` of the source, where an absent candidate plays `minT = Infinity`. -/
def beatsBest (t : ℝ) (best : Option Hit) : Prop :=
  match best with
  | none => True
  | some h => t < h.t

/-- One turn of the `for (const obj of mirrors)` loop of `traceRay`. -/
noncomputable def mirrorStep (origin dir : Vector2) (best : Option Hit) (obj : OpticObject) :
    Option Hit :=
  let seg := getMirrorSegment obj
  let inter := lineIntersect origin dir seg.p1 seg.p2
  match inter.point with
  | none => best
  | some p =>
    if inter.t > 0.01 ∧ beatsBest inter.t best ∧ dot dir seg.normal < 0 then
      some ⟨inter.t, seg.normal, p, ObstacleType.mirror⟩
    else best

/-- One turn of the `for (const obj of prisms)` loop of `traceRay`. -/
noncomputable def prismStep (origin dir : Vector2) (best : Option Hit) (obj : OpticObject) :
    Option Hit :=
  let oc := sub obj.position origin
  let b := 2 * dot oc dir
  let c := dot oc oc - (obj.size / 2) ^ 2
  let disc := b * b - 4 * c
  if disc < 0 then best
  else
    let t0 := (-b - Real.sqrt disc) / 2
    let t := if t0 < 0.01 then (-b + Real.sqrt disc) / 2 else t0
    if t > 0.01 ∧ beatsBest t best then
      let hitP := add origin (scale t dir)
      let radialNormal := normalize (sub hitP obj.position)
      if dot dir radialNormal < 0 then some ⟨t, radialNormal, hitP, ObstacleType.prism⟩
      else best
    else best

/-- The hit-search part of one iteration of the bounce loop of `traceRay`:
the mirror scan followed by the prism scan. -/
noncomputable def findHit (objects : List OpticObject) (origin dir : Vector2) : Option Hit :=
  let mirrors := objects.filter fun o =>
    decide (o.type = ObstacleType.mirror ∧ o.id ≠ "light1" ∧ o.id ≠ "target1")
  let afterMirrors := mirrors.foldl (mirrorStep origin dir) none
  let prisms := objects.filter fun o => decide (o.type = ObstacleType.prism)
  prisms.foldl (prismStep origin dir) afterMirrors

/-- The bounce loop of `traceRay`; the fuel is the remaining number of
iterations of `for (let bounce = 0; bounce < maxBounces; bounce++)`. -/
noncomputable def traceRayAux (objects : List OpticObject) (colorIndex : ℕ) :
    ℕ → Vector2 → Vector2 → ℝ → List Segment → List Segment
  | 0, _, _, _, segments => segments
  | fuel + 1, origin, dir, totalLength, segments =>
    match findHit objects origin dir with
    | some hit =>
      let segments2 := segments ++
        [⟨origin, add origin (scale hit.t dir), COLORS.getD colorIndex "red"⟩]
      let n := normalize hit.normal
      let next : Vector2 × Vector2 :=
        if hit.htype = ObstacleType.mirror then
          (normalize (reflect dir n), add hit.point (scale 0.1 n))
        else
          let eta := 1 / REFRACTION_INDICES.getD colorIndex 1
          (match refract dir hit.normal eta with
           | some refracted => normalize refracted
           | none => normalize (reflect dir n),
           add hit.point (scale 0.05 n))
      if totalLength + hit.t > 1000 then segments2
      else traceRayAux objects colorIndex fuel next.2 next.1 (totalLength + hit.t) segments2
    | none =>
      if 1000 - totalLength > 0 then
        segments ++
          [⟨origin, add origin (scale (1000 - totalLength) dir), COLORS.getD colorIndex "red"⟩]
      else segments

noncomputable def traceRay (initialOrigin initialDir : Vector2) (colorIndex : ℕ)
    (objects : List OpticObject) : List Segment :=
  traceRayAux objects colorIndex 10 initialOrigin (normalize initialDir) 0 []

/-- `computeRays` of the `App` component: outer loop over lights, inner loop
over the wavelength palette, appending each trace's segments. -/
noncomputable def computeRays (objects : List OpticObject) : List Segment :=
  (objects.filter fun o => decide (o.type = ObstacleType.light)).foldl
    (fun acc light =>
      (List.range COLORS.length).foldl
        (fun acc2 index => acc2 ++ traceRay light.position ⟨1, 0⟩ index objects) acc)
    []

/-- The solved-state update effect of `App`: `none` models the effect not
calling `setSolved` because no target exists in the scene. -/
noncomputable def checkSolved (objects : List OpticObject) : Option Bool :=
  (objects.find? fun o => decide (o.type = ObstacleType.target)).map fun target =>
    (computeRays objects).any fun seg =>
      decide ((seg.«end».x - target.position.x) * (seg.«end».x - target.position.x) +
              (seg.«end».y - target.position.y) * (seg.«end».y - target.position.y)
              < (target.size / 2 + 5) ^ 2)

/-- The initial scene of the `App` component. -/
noncomputable def defaultObjects : List OpticObject :=
  [⟨"light1", ObstacleType.light, ⟨100, 300⟩, 0, 20⟩,
   ⟨"target1", ObstacleType.target, ⟨600, 100⟩, 0, 30⟩]

/-- A concrete mirror used in the bounce-limit scene. -/
noncomputable def mirrorA : OpticObject :=
  ⟨"m1", ObstacleType.mirror, ⟨-1, 40⟩, Real.pi / 2, 40⟩

/-- A concrete mirror used in the bounce-limit scene. -/
noncomputable def mirrorB : OpticObject :=
  ⟨"m2", ObstacleType.mirror, ⟨1.9, -40⟩, -(Real.pi / 2), 40⟩

/-- A scene in which the traced ray keeps finding mirror hits forever, so the
trace only stops at the bounce limit. -/
noncomputable def ringScene : List OpticObject := [mirrorA, mirrorB]

/-- A mirror whose (phantom) hit is at parameter exactly 1000, exhausting the
travel budget exactly. -/
noncomputable def mirrorFar : OpticObject :=
  ⟨"m3", ObstacleType.mirror, ⟨-1000, 40⟩, Real.pi / 2, 40⟩

noncomputable def farScene : List OpticObject := [mirrorFar]

/-- A prism disc the ray misses entirely (negative discriminant). -/
noncomputable def prismOff : OpticObject := ⟨"p1", ObstacleType.prism, ⟨0, 5⟩, 0, 2⟩

/-! ### Evaluation helpers -/

theorem vecLen_mk (x y : ℝ) : vecLen ⟨x, y⟩ = Real.sqrt (x * x + y * y) := rfl

theorem vecLen_unit_px : vecLen ⟨1, 0⟩ = 1 := by
  rw [vecLen_mk]; norm_num

theorem vecLen_unit_mx : vecLen ⟨-1, 0⟩ = 1 := by
  rw [vecLen_mk]; norm_num

theorem vecLen_unit_py : vecLen ⟨0, 1⟩ = 1 := by
  rw [vecLen_mk]; norm_num

theorem vecLen_unit_my : vecLen ⟨0, -1⟩ = 1 := by
  rw [vecLen_mk]; norm_num

theorem normalize_of_unit {v : Vector2} (h : vecLen v = 1) : normalize v = v := by
  simp [normalize, h]

theorem reflect_px_mx : reflect ⟨1, 0⟩ ⟨-1, 0⟩ = ⟨-1, 0⟩ := by
  rw [reflect, normalize_of_unit vecLen_unit_mx]
  simp [sub, scale, dot]
  norm_num

theorem reflect_mx_px : reflect ⟨-1, 0⟩ ⟨1, 0⟩ = ⟨1, 0⟩ := by
  rw [reflect, normalize_of_unit vecLen_unit_px]
  simp [sub, scale, dot]
  norm_num

theorem seg_mirrorA : getMirrorSegment mirrorA = ⟨⟨-1, 20⟩, ⟨-1, 60⟩, ⟨-1, 0⟩⟩ := by
  simp [getMirrorSegment, mirrorA, rotate, add, MirrorSegment.mk.injEq, Vector2.mk.injEq]
  norm_num

theorem seg_mirrorB : getMirrorSegment mirrorB = ⟨⟨1.9, -20⟩, ⟨1.9, -60⟩, ⟨1, 0⟩⟩ := by
  simp [getMirrorSegment, mirrorB, rotate, add, MirrorSegment.mk.injEq, Vector2.mk.injEq,
    Real.cos_pi_div_two, Real.sin_pi_div_two]
  norm_num

theorem li_ringA_mA : lineIntersect ⟨0, 0⟩ ⟨1, 0⟩ ⟨-1, 20⟩ ⟨-1, 60⟩ =
    ⟨some ⟨1, 0⟩, 1, 1 / 2⟩ := by
  rw [lineIntersect]
  norm_num [add, scale, Vector2.mk.injEq, LineIntersectResult.mk.injEq]

theorem li_ringA_mB : lineIntersect ⟨0, 0⟩ ⟨1, 0⟩ ⟨1.9, -20⟩ ⟨1.9, -60⟩ =
    ⟨none, -1, -1⟩ := by
  rw [lineIntersect]
  norm_num [LineIntersectResult.mk.injEq]

theorem li_ringB_mA : lineIntersect ⟨0.9, 0⟩ ⟨-1, 0⟩ ⟨-1, 20⟩ ⟨-1, 60⟩ =
    ⟨none, -1, -1⟩ := by
  rw [lineIntersect]
  norm_num [LineIntersectResult.mk.injEq]

theorem li_ringB_mB : lineIntersect ⟨0.9, 0⟩ ⟨-1, 0⟩ ⟨1.9, -20⟩ ⟨1.9, -60⟩ =
    ⟨some ⟨-0.1, 0⟩, 1, 1 / 2⟩ := by
  rw [lineIntersect]
  norm_num [add, scale, Vector2.mk.injEq, LineIntersectResult.mk.injEq]

theorem seg_mirrorFar : getMirrorSegment mirrorFar = ⟨⟨-1000, 20⟩, ⟨-1000, 60⟩, ⟨-1, 0⟩⟩ := by
  simp [getMirrorSegment, mirrorFar, rotate, add, MirrorSegment.mk.injEq, Vector2.mk.injEq]
  norm_num

theorem li_far_hit : lineIntersect ⟨0, 0⟩ ⟨1, 0⟩ ⟨-1000, 20⟩ ⟨-1000, 60⟩ =
    ⟨some ⟨1000, 0⟩, 1000, 1 / 2⟩ := by
  rw [lineIntersect]
  norm_num [add, scale, Vector2.mk.injEq, LineIntersectResult.mk.injEq]

theorem li_far_miss : lineIntersect ⟨999.9, 0⟩ ⟨-1, 0⟩ ⟨-1000, 20⟩ ⟨-1000, 60⟩ =
    ⟨none, -1, -1⟩ := by
  rw [lineIntersect]
  norm_num [LineIntersectResult.mk.injEq]

theorem msA1 : mirrorStep ⟨0, 0⟩ ⟨1, 0⟩ none mirrorA =
    some ⟨1, ⟨-1, 0⟩, ⟨1, 0⟩, ObstacleType.mirror⟩ := by
  simp only [mirrorStep, seg_mirrorA, li_ringA_mA]
  norm_num [beatsBest, dot]

theorem msA2 : mirrorStep ⟨0, 0⟩ ⟨1, 0⟩ (some ⟨1, ⟨-1, 0⟩, ⟨1, 0⟩, ObstacleType.mirror⟩)
    mirrorB = some ⟨1, ⟨-1, 0⟩, ⟨1, 0⟩, ObstacleType.mirror⟩ := by
  simp only [mirrorStep, seg_mirrorB, li_ringA_mB]

theorem msB1 : mirrorStep ⟨0.9, 0⟩ ⟨-1, 0⟩ none mirrorA = none := by
  simp only [mirrorStep, seg_mirrorA, li_ringB_mA]

theorem msB2 : mirrorStep ⟨0.9, 0⟩ ⟨-1, 0⟩ none mirrorB =
    some ⟨1, ⟨1, 0⟩, ⟨-0.1, 0⟩, ObstacleType.mirror⟩ := by
  simp only [mirrorStep, seg_mirrorB, li_ringB_mB]
  norm_num [beatsBest, dot]

theorem msF1 : mirrorStep ⟨0, 0⟩ ⟨1, 0⟩ none mirrorFar =
    some ⟨1000, ⟨-1, 0⟩, ⟨1000, 0⟩, ObstacleType.mirror⟩ := by
  simp only [mirrorStep, seg_mirrorFar, li_far_hit]
  norm_num [beatsBest, dot]

theorem msF2 : mirrorStep ⟨999.9, 0⟩ ⟨-1, 0⟩ none mirrorFar = none := by
  simp only [mirrorStep, seg_mirrorFar, li_far_miss]

theorem ring_filter_mirror :
    (ringScene.filter fun o =>
      decide (o.type = ObstacleType.mirror ∧ o.id ≠ "light1" ∧ o.id ≠ "target1")) =
    [mirrorA, mirrorB] := rfl

theorem ring_filter_prism :
    (ringScene.filter fun o => decide (o.type = ObstacleType.prism)) = [] := rfl

theorem far_filter_mirror :
    (farScene.filter fun o =>
      decide (o.type = ObstacleType.mirror ∧ o.id ≠ "light1" ∧ o.id ≠ "target1")) =
    [mirrorFar] := rfl

theorem far_filter_prism :
    (farScene.filter fun o => decide (o.type = ObstacleType.prism)) = [] := rfl

theorem default_filter_mirror :
    (defaultObjects.filter fun o =>
      decide (o.type = ObstacleType.mirror ∧ o.id ≠ "light1" ∧ o.id ≠ "target1")) = [] := rfl

theorem default_filter_prism :
    (defaultObjects.filter fun o => decide (o.type = ObstacleType.prism)) = [] := rfl

theorem default_filter_light :
    (defaultObjects.filter fun o => decide (o.type = ObstacleType.light)) =
    [⟨"light1", ObstacleType.light, ⟨100, 300⟩, 0, 20⟩] := rfl

theorem findHit_ringA : findHit ringScene ⟨0, 0⟩ ⟨1, 0⟩ =
    some ⟨1, ⟨-1, 0⟩, ⟨1, 0⟩, ObstacleType.mirror⟩ := by
  simp only [findHit, ring_filter_mirror, ring_filter_prism, List.foldl_cons, List.foldl_nil,
    msA1, msA2]

theorem findHit_ringB : findHit ringScene ⟨0.9, 0⟩ ⟨-1, 0⟩ =
    some ⟨1, ⟨1, 0⟩, ⟨-0.1, 0⟩, ObstacleType.mirror⟩ := by
  simp only [findHit, ring_filter_mirror, ring_filter_prism, List.foldl_cons, List.foldl_nil,
    msB1, msB2]

theorem findHit_far0 : findHit farScene ⟨0, 0⟩ ⟨1, 0⟩ =
    some ⟨1000, ⟨-1, 0⟩, ⟨1000, 0⟩, ObstacleType.mirror⟩ := by
  simp only [findHit, far_filter_mirror, far_filter_prism, List.foldl_cons, List.foldl_nil, msF1]

theorem findHit_far1 : findHit farScene ⟨999.9, 0⟩ ⟨-1, 0⟩ = none := by
  simp only [findHit, far_filter_mirror, far_filter_prism, List.foldl_cons, List.foldl_nil, msF2]

theorem findHit_default (o d : Vector2) : findHit defaultObjects o d = none := by
  simp only [findHit, default_filter_mirror, default_filter_prism, List.foldl_nil]

theorem stepRingA (fuel : ℕ) (len : ℝ) (segs : List Segment) (h : ¬len + 1 > 1000) :
    traceRayAux ringScene 0 (fuel + 1) ⟨0, 0⟩ ⟨1, 0⟩ len segs =
    traceRayAux ringScene 0 fuel ⟨0.9, 0⟩ ⟨-1, 0⟩ (len + 1)
      (segs ++ [⟨⟨0, 0⟩, ⟨1, 0⟩, "red"⟩]) := by
  rw [traceRayAux, findHit_ringA]
  simp only [normalize_of_unit vecLen_unit_mx, reflect_px_mx, if_neg h]
  norm_num [add, scale, COLORS]

theorem stepRingB (fuel : ℕ) (len : ℝ) (segs : List Segment) (h : ¬len + 1 > 1000) :
    traceRayAux ringScene 0 (fuel + 1) ⟨0.9, 0⟩ ⟨-1, 0⟩ len segs =
    traceRayAux ringScene 0 fuel ⟨0, 0⟩ ⟨1, 0⟩ (len + 1)
      (segs ++ [⟨⟨0.9, 0⟩, ⟨-0.1, 0⟩, "red"⟩]) := by
  rw [traceRayAux, findHit_ringB]
  simp only [normalize_of_unit vecLen_unit_px, reflect_mx_px, if_neg h]
  norm_num [add, scale, COLORS]

theorem stepFar0 (fuel : ℕ) :
    traceRayAux farScene 0 (fuel + 1) ⟨0, 0⟩ ⟨1, 0⟩ 0 [] =
    traceRayAux farScene 0 fuel ⟨999.9, 0⟩ ⟨-1, 0⟩ 1000 [⟨⟨0, 0⟩, ⟨1000, 0⟩, "red"⟩] := by
  rw [traceRayAux, findHit_far0]
  simp only [normalize_of_unit vecLen_unit_mx, reflect_px_mx]
  norm_num [add, scale, COLORS]

theorem stepFar1 (fuel : ℕ) (segs : List Segment) :
    traceRayAux farScene 0 (fuel + 1) ⟨999.9, 0⟩ ⟨-1, 0⟩ 1000 segs = segs := by
  rw [traceRayAux, findHit_far1]
  norm_num

theorem traceRayAux_length_le (objects : List OpticObject) (i : ℕ) :
    ∀ (fuel : ℕ) (o d : Vector2) (len : ℝ) (segs : List Segment),
      (traceRayAux objects i fuel o d len segs).length ≤ segs.length + fuel := by
  intro fuel
  induction fuel with
  | zero => intro o d len segs; simp [traceRayAux]
  | succ n ih =>
    intro o d len segs
    rw [traceRayAux]
    cases hf : findHit objects o d with
    | none =>
      dsimp only
      split_ifs <;> simp
    | some hit =>
      dsimp only
      by_cases h1 : len + hit.t > 1000
      · rw [if_pos h1]; simp
      · rw [if_neg h1]
        refine le_trans (ih _ _ _ _) ?_
        simp
        omega

theorem traceRayAux_prefix (objects : List OpticObject) (i : ℕ) :
    ∀ (fuel : ℕ) (o d : Vector2) (len : ℝ) (segs : List Segment),
      ∃ tail, traceRayAux objects i fuel o d len segs = segs ++ tail := by
  intro fuel
  induction fuel with
  | zero => intro o d len segs; exact ⟨[], by simp [traceRayAux]⟩
  | succ n ih =>
    intro o d len segs
    rw [traceRayAux]
    cases hf : findHit objects o d with
    | none =>
      dsimp only
      split_ifs
      · exact ⟨_, rfl⟩
      · exact ⟨[], by simp⟩
    | some hit =>
      dsimp only
      by_cases h1 : len + hit.t > 1000
      · rw [if_pos h1]; exact ⟨_, rfl⟩
      · rw [if_neg h1]
        obtain ⟨tail, ht⟩ := ih _ _ _ _
        exact ⟨_, by rw [ht, List.append_assoc]⟩

/-! ### Claim theorems -/

/-- C9: `normalize` returns the zero vector when the length is zero and otherwise
scales the vector by the reciprocal of its length, never dividing by zero; it is
idempotent, and the zero vector maps to itself. -/
theorem normalize_spec (v : Vector2) :
    (vecLen v = 0 → normalize v = ⟨0, 0⟩) ∧
    (vecLen v ≠ 0 → normalize v = scale (1 / vecLen v) v) ∧
    normalize (normalize v) = normalize v ∧ normalize ⟨0, 0⟩ = ⟨0, 0⟩ := by
  have hzero : normalize ⟨0, 0⟩ = ⟨0, 0⟩ := by
    rw [normalize, vecLen_mk]
    norm_num
  refine ⟨fun h0 => ?_, fun hne => ?_, ?_, hzero⟩
  · rw [normalize, h0]
    norm_num
  · have hpos : vecLen v > 0 := lt_of_le_of_ne (Real.sqrt_nonneg _) (Ne.symm hne)
    rw [normalize, if_pos hpos]
    simp only [scale, Vector2.mk.injEq]
    constructor <;> ring
  · by_cases hpos : vecLen v > 0
    · have hL2 : vecLen v * vecLen v = v.x * v.x + v.y * v.y :=
        Real.mul_self_sqrt (add_nonneg (mul_self_nonneg _) (mul_self_nonneg _))
      have h1 : vecLen (normalize v) = 1 := by
        rw [normalize, if_pos hpos, vecLen_mk]
        have harith : v.x / vecLen v * (v.x / vecLen v) + v.y / vecLen v * (v.y / vecLen v) =
            (v.x * v.x + v.y * v.y) / (vecLen v * vecLen v) := by ring
        rw [harith, ← hL2, div_self (mul_pos hpos hpos).ne']
        exact Real.sqrt_one
      conv_lhs => rw [normalize]
      rw [h1]
      norm_num
    · have h0 : normalize v = ⟨0, 0⟩ := by rw [normalize, if_neg hpos]
      rw [h0, hzero]

/-- C9 witness: at `v = (3, 4)` the length is nonzero and `normalize` scales by
its reciprocal. -/
theorem normalize_spec_witness :
    vecLen ⟨3, 4⟩ ≠ 0 ∧ normalize ⟨3, 4⟩ = scale (1 / vecLen ⟨3, 4⟩) ⟨3, 4⟩ :=
  ⟨by rw [vecLen_mk]; norm_num [Real.sqrt_ne_zero'],
   (normalize_spec ⟨3, 4⟩).2.1 (by rw [vecLen_mk]; norm_num [Real.sqrt_ne_zero'])⟩

/-- C8: `reflect d n` equals `d − 2·dot(d, n̂)·n̂` with the normal normalized
inside the formula, it is total, and for unit `d` and unit `n` it preserves the
magnitude of `d`. -/
theorem reflect_spec (d n : Vector2) :
    reflect d n = sub d (scale (2 * dot d (normalize n)) (normalize n)) ∧
    (vecLen d = 1 → vecLen n = 1 → vecLen (reflect d n) = vecLen d) := by
  constructor
  · simp only [reflect, sub, scale, Vector2.mk.injEq]
    constructor <;> ring
  · intro hd hn
    have hn2 : n.x * n.x + n.y * n.y = 1 := by
      have hmul : Real.sqrt (n.x * n.x + n.y * n.y) * Real.sqrt (n.x * n.x + n.y * n.y) =
          n.x * n.x + n.y * n.y :=
        Real.mul_self_sqrt (add_nonneg (mul_self_nonneg _) (mul_self_nonneg _))
      rw [vecLen_mk] at hn
      rw [hn] at hmul
      linarith
    rw [reflect, normalize_of_unit hn, vecLen_mk, vecLen_mk]
    congr 1
    simp only [sub, scale, dot]
    linear_combination (4 * (d.x * n.x + d.y * n.y) ^ 2) * hn2

/-- C8 witness: unit incident `(1,0)` against unit normal `(0,1)` preserves
magnitude. -/
theorem reflect_spec_witness :
    vecLen ⟨1, 0⟩ = 1 ∧ vecLen ⟨0, 1⟩ = 1 ∧
      vecLen (reflect ⟨1, 0⟩ ⟨0, 1⟩) = vecLen ⟨1, 0⟩ :=
  ⟨vecLen_unit_px, vecLen_unit_py,
    (reflect_spec ⟨1, 0⟩ ⟨0, 1⟩).2 vecLen_unit_px vecLen_unit_py⟩

/-- C1: `refract` returns `none` exactly when the incidence cosine
`−dot(d̂, n̂)` is negative or `eta² · (1 − cos²)` exceeds 1, and in every other
case returns `eta·d̂ + (−eta·cosTheta + cosPhi)·n̂`; it is a total function with
no other outcome. -/
theorem refract_spec (d n : Vector2) (eta : ℝ) :
    (refract d n eta = none ↔
      -dot (normalize d) (normalize n) < 0 ∨
        eta * eta *
          (1 - -dot (normalize d) (normalize n) * -dot (normalize d) (normalize n)) > 1) ∧
    (¬(-dot (normalize d) (normalize n) < 0 ∨
        eta * eta *
          (1 - -dot (normalize d) (normalize n) * -dot (normalize d) (normalize n)) > 1) →
      refract d n eta =
        some (add (scale eta (normalize d))
          (scale (-eta * -dot (normalize d) (normalize n) +
              Real.sqrt (1 - eta * eta *
                (1 - -dot (normalize d) (normalize n) * -dot (normalize d) (normalize n))))
            (normalize n)))) := by
  simp only [refract]
  by_cases h1 : -dot (normalize d) (normalize n) < 0
  · rw [if_pos h1]
    exact ⟨⟨fun _ => Or.inl h1, fun _ => rfl⟩, fun hcon => absurd (Or.inl h1) hcon⟩
  · rw [if_neg h1]
    by_cases h2 : eta * eta *
        (1 - -dot (normalize d) (normalize n) * -dot (normalize d) (normalize n)) > 1
    · rw [if_pos h2]
      exact ⟨⟨fun _ => Or.inr h2, fun _ => rfl⟩, fun hcon => absurd (Or.inr h2) hcon⟩
    · rw [if_neg h2]
      exact ⟨⟨fun hsome => absurd hsome (Option.some_ne_none _),
        fun hor => ((not_or.mpr ⟨h1, h2⟩) hor).elim⟩, fun _ => rfl⟩

/-- C1 witness: normal incidence `d = (0,1)` on `n = (0,−1)` with `eta = 1/2`
refracts to the stated vector. -/
theorem refract_spec_witness :
    refract ⟨0, 1⟩ ⟨0, -1⟩ (1 / 2) =
      some (add (scale (1 / 2) (normalize ⟨0, 1⟩))
        (scale (-(1 / 2) * -dot (normalize ⟨0, 1⟩) (normalize ⟨0, -1⟩) +
            Real.sqrt (1 - 1 / 2 * (1 / 2) *
              (1 - -dot (normalize ⟨0, 1⟩) (normalize ⟨0, -1⟩) *
                  -dot (normalize ⟨0, 1⟩) (normalize ⟨0, -1⟩)))) (normalize ⟨0, -1⟩))) :=
  (refract_spec ⟨0, 1⟩ ⟨0, -1⟩ (1 / 2)).2 (by
    rw [normalize_of_unit vecLen_unit_py, normalize_of_unit vecLen_unit_my]
    norm_num [dot])

/-- C4: the claim fails on the code. For origin (0,0), direction (1,0) and the
segment from (2,−1) to (2,1), the 2×2 system `origin + t·dir = p1 + u·(p2−p1)`
is solved by (t, u) = (2, 1/2) with `t ≥ 0`, `u ∈ [0,1]` and a determinant of
magnitude 2, yet `lineIntersect` reports no intersection; conversely, for a
segment lying behind the ray it reports a phantom hit at (5,0), a point that is
not on the segment at all (the code's `t`/`u` formulas are the negations of the
system's solution). -/
theorem lineIntersect_sign_bug :
    (lineIntersect ⟨0, 0⟩ ⟨1, 0⟩ ⟨2, -1⟩ ⟨2, 1⟩).point = none ∧
    add ⟨0, 0⟩ (scale 2 ⟨1, 0⟩) = add ⟨2, -1⟩ (scale (1 / 2) (sub ⟨2, 1⟩ ⟨2, -1⟩)) ∧
    ((2 : ℝ) ≥ 0 ∧ (0 : ℝ) ≤ 1 / 2 ∧ (1 / 2 : ℝ) ≤ 1) ∧
    ¬|(1 : ℝ) * (1 - -1) - 0 * (2 - 2)| < 1e-6 ∧
    (lineIntersect ⟨0, 0⟩ ⟨1, 0⟩ ⟨-5, 1⟩ ⟨-5, 3⟩).point = some ⟨5, 0⟩ ∧
    (∀ u : ℝ, (add ⟨-5, 1⟩ (scale u (sub ⟨-5, 3⟩ ⟨-5, 1⟩))).x = -5) := by
  refine ⟨?_, ?_, ⟨by norm_num, by norm_num, by norm_num⟩, by norm_num, ?_, ?_⟩
  · rw [lineIntersect]
    norm_num
  · simp only [add, scale, sub, Vector2.mk.injEq]
    norm_num
  · rw [lineIntersect]
    norm_num [add, scale, Vector2.mk.injEq]
  · intro u
    simp [add, scale, sub]

/-- C2: the prism scan treats each prism as a disc of radius size/2: with
`b = 2·dot(oc, dir)`, `c = dot(oc,oc) − (size/2)²` and `disc = b² − 4c`, a
negative discriminant leaves the candidate unchanged; otherwise the smaller
value `t1 = (−b − √disc)/2` is preferred and the larger value
`t2 = (−b + √disc)/2` is used instead when `t1` falls behind the 0.01 threshold;
a new candidate is accepted only if its `t` exceeds 0.01, beats the current
nearest candidate, and the ray approaches from outside
(`dot(dir, radial normal) < 0`). -/
theorem prismStep_spec (origin dir : Vector2) (best : Option Hit) (obj : OpticObject)
    (b c disc t1 t2 : ℝ)
    (hb : b = 2 * dot (sub obj.position origin) dir)
    (hc : c = dot (sub obj.position origin) (sub obj.position origin) - (obj.size / 2) ^ 2)
    (hdisc : disc = b * b - 4 * c)
    (ht1 : t1 = (-b - Real.sqrt disc) / 2)
    (ht2 : t2 = (-b + Real.sqrt disc) / 2) :
    (disc < 0 → prismStep origin dir best obj = best) ∧
    (prismStep origin dir best obj ≠ best →
      ∃ h : Hit, prismStep origin dir best obj = some h ∧
        h.htype = ObstacleType.prism ∧ h.t > 0.01 ∧ beatsBest h.t best ∧
        h.point = add origin (scale h.t dir) ∧
        h.normal = normalize (sub h.point obj.position) ∧
        dot dir h.normal < 0 ∧
        ((h.t = t1 ∧ ¬t1 < 0.01) ∨ (h.t = t2 ∧ t1 < 0.01))) := by
  have hstep : prismStep origin dir best obj =
      if disc < 0 then best
      else
        if (if t1 < 0.01 then t2 else t1) > 0.01 ∧ beatsBest (if t1 < 0.01 then t2 else t1) best
        then
          if dot dir (normalize (sub (add origin (scale (if t1 < 0.01 then t2 else t1) dir))
              obj.position)) < 0 then
            some ⟨if t1 < 0.01 then t2 else t1,
              normalize (sub (add origin (scale (if t1 < 0.01 then t2 else t1) dir))
                obj.position),
              add origin (scale (if t1 < 0.01 then t2 else t1) dir), ObstacleType.prism⟩
          else best
        else best := by
    subst hb hc hdisc ht1 ht2
    rfl
  constructor
  · intro hneg
    rw [hstep, if_pos hneg]
  · intro hne
    rw [hstep] at hne ⊢
    by_cases hneg : disc < 0
    · rw [if_pos hneg] at hne
      exact absurd rfl hne
    · rw [if_neg hneg] at hne ⊢
      by_cases hcond : (if t1 < 0.01 then t2 else t1) > 0.01 ∧
          beatsBest (if t1 < 0.01 then t2 else t1) best
      · rw [if_pos hcond] at hne ⊢
        by_cases hdot : dot dir (normalize (sub (add origin
            (scale (if t1 < 0.01 then t2 else t1) dir)) obj.position)) < 0
        · rw [if_pos hdot] at hne ⊢
          refine ⟨_, rfl, rfl, hcond.1, hcond.2, rfl, rfl, hdot, ?_⟩
          by_cases h01 : t1 < 0.01
          · right
            exact ⟨by rw [if_pos h01], h01⟩
          · left
            exact ⟨by rw [if_neg h01], h01⟩
        · rw [if_neg hdot] at hne
          exact absurd rfl hne
      · rw [if_neg hcond] at hne
        exact absurd rfl hne

/-- C2 witness: for a prism of size 2 centred at (0,5) and a ray from the origin
along +x, the discriminant is −96 < 0 and the scan leaves the candidate
unchanged. -/
theorem prismStep_spec_witness : prismStep ⟨0, 0⟩ ⟨1, 0⟩ none prismOff = none :=
  (prismStep_spec ⟨0, 0⟩ ⟨1, 0⟩ none prismOff 0 24 (-96)
      ((-(0 : ℝ) - Real.sqrt (-96)) / 2) ((-(0 : ℝ) + Real.sqrt (-96)) / 2)
      (by simp [prismOff, sub, dot])
      (by simp [prismOff, sub, dot]; norm_num)
      (by norm_num) rfl rfl).1 (by norm_num)

/-- C6: a trace only ever intersects mirrors whose id is neither `light1` nor
`target1`, and prisms: restricting the scene to those obstacles leaves every
trace unchanged, so lights and targets never occlude, reflect or refract a
ray. -/
theorem trace_only_mirrors_and_prisms (initialOrigin initialDir : Vector2) (i : ℕ)
    (objects : List OpticObject) :
    traceRay initialOrigin initialDir i objects =
    traceRay initialOrigin initialDir i (objects.filter fun o =>
      decide ((o.type = ObstacleType.mirror ∧ o.id ≠ "light1" ∧ o.id ≠ "target1") ∨
        o.type = ObstacleType.prism)) := by
  have key : ∀ (f g : OpticObject → Bool), (∀ o, f o = true → g o = true) →
      ∀ l : List OpticObject, (l.filter g).filter f = l.filter f := by
    intro f g hfg l
    induction l with
    | nil => rfl
    | cons a t ih =>
      by_cases hfa : f a = true
      · have hga := hfg a hfa
        simp [List.filter_cons, hga, hfa, ih]
      · by_cases hga : g a = true
        · simp [List.filter_cons, hga, hfa, ih]
        · simp [List.filter_cons, hga, hfa, ih]
  have hm : ∀ o : OpticObject,
      decide (o.type = ObstacleType.mirror ∧ o.id ≠ "light1" ∧ o.id ≠ "target1") = true →
      decide ((o.type = ObstacleType.mirror ∧ o.id ≠ "light1" ∧ o.id ≠ "target1") ∨
        o.type = ObstacleType.prism) = true := by
    intro o h
    rw [decide_eq_true_eq] at h ⊢
    exact Or.inl h
  have hp : ∀ o : OpticObject, decide (o.type = ObstacleType.prism) = true →
      decide ((o.type = ObstacleType.mirror ∧ o.id ≠ "light1" ∧ o.id ≠ "target1") ∨
        o.type = ObstacleType.prism) = true := by
    intro o h
    rw [decide_eq_true_eq] at h ⊢
    exact Or.inr h
  have hfind : ∀ o d : Vector2,
      findHit (objects.filter fun o =>
        decide ((o.type = ObstacleType.mirror ∧ o.id ≠ "light1" ∧ o.id ≠ "target1") ∨
          o.type = ObstacleType.prism)) o d = findHit objects o d := by
    intro o d
    simp only [findHit]
    rw [key _ _ hm, key _ _ hp]
  have haux : ∀ (fuel : ℕ) (o d : Vector2) (len : ℝ) (segs : List Segment),
      traceRayAux objects i fuel o d len segs =
      traceRayAux (objects.filter fun o =>
        decide ((o.type = ObstacleType.mirror ∧ o.id ≠ "light1" ∧ o.id ≠ "target1") ∨
          o.type = ObstacleType.prism)) i fuel o d len segs := by
    intro fuel
    induction fuel with
    | zero => intro o d len segs; rfl
    | succ n ih =>
      intro o d len segs
      rw [traceRayAux, traceRayAux, hfind o d]
      cases findHit objects o d with
      | none => rfl
      | some hit =>
        dsimp only
        by_cases h1 : len + hit.t > 1000
        · rw [if_pos h1, if_pos h1]
        · rw [if_neg h1, if_neg h1, ih]
  rw [traceRay, traceRay, haux]

/-- C7: with a target present, the solved flag is set, and it is `true` exactly
when some traced segment's endpoint lies within `target.size/2 + 5` of the
target's centre, compared by squared distance against the current scene's
aggregated trace. -/
theorem checkSolved_spec (objects : List OpticObject) (target : OpticObject)
    (hfind : (objects.find? fun o => decide (o.type = ObstacleType.target)) = some target) :
    checkSolved objects = some true ↔
      ∃ seg ∈ computeRays objects,
        (seg.«end».x - target.position.x) * (seg.«end».x - target.position.x) +
          (seg.«end».y - target.position.y) * (seg.«end».y - target.position.y) <
          (target.size / 2 + 5) ^ 2 := by
  rw [checkSolved, hfind]
  simp [List.any_eq_true]

/-- C7 witness: the default scene, whose first target is `target1` at
(600, 100) with size 30. -/
theorem checkSolved_spec_witness :
    checkSolved defaultObjects = some true ↔
      ∃ seg ∈ computeRays defaultObjects,
        (seg.«end».x - (600 : ℝ)) * (seg.«end».x - 600) +
          (seg.«end».y - (100 : ℝ)) * (seg.«end».y - 100) < ((30 : ℝ) / 2 + 5) ^ 2 :=
  checkSolved_spec defaultObjects ⟨"target1", ObstacleType.target, ⟨600, 100⟩, 0, 30⟩ rfl

/-- C10: every trace is non-empty and its first segment starts at the initial
origin: the first iteration always emits a segment, either up to a hit point or
along the full positive remaining budget. -/
theorem traceRay_first_segment (o d : Vector2) (i : ℕ) (objects : List OpticObject) :
    ∃ (s : Segment) (rest : List Segment),
      traceRay o d i objects = s :: rest ∧ s.start = o := by
  rw [traceRay, show (10 : ℕ) = 9 + 1 from rfl, traceRayAux]
  cases hf : findHit objects o (normalize d) with
  | none =>
    dsimp only
    rw [if_pos (by norm_num : (1000 : ℝ) - 0 > 0)]
    exact ⟨_, [], rfl, rfl⟩
  | some hit =>
    dsimp only
    by_cases h1 : (0 : ℝ) + hit.t > 1000
    · rw [if_pos h1]
      exact ⟨_, [], rfl, rfl⟩
    · rw [if_neg h1]
      obtain ⟨tail, ht⟩ := traceRayAux_prefix objects i 9 _ _ _ _
      refine ⟨⟨o, add o (scale hit.t (normalize d)), COLORS.getD i "red"⟩, tail, ?_, rfl⟩
      rw [ht]
      simp

/-- C5: every trace performs at most 10 bounce iterations and emits at most one
segment per iteration, so it terminates with at most 10 segments; in the closed
two-mirror scene `ringScene`, from which the ray never escapes, the trace stops
after exactly 10 emitted segments instead of looping forever. -/
theorem traceRay_bounce_limit :
    (∀ (o d : Vector2) (i : ℕ) (objects : List OpticObject),
      (traceRay o d i objects).length ≤ 10) ∧
    (traceRay ⟨0, 0⟩ ⟨1, 0⟩ 0 ringScene).length = 10 := by
  constructor
  · intro o d i objects
    have h := traceRayAux_length_le objects i 10 o (normalize d) 0 []
    simpa [traceRay] using h
  · rw [traceRay, normalize_of_unit vecLen_unit_px]
    rw [show (10 : ℕ) = 9 + 1 from rfl, stepRingA 9 (0) _ (by norm_num)]
    rw [show (9 : ℕ) = 8 + 1 from rfl, stepRingB 8 (0 + 1) _ (by norm_num)]
    rw [show (8 : ℕ) = 7 + 1 from rfl, stepRingA 7 (0 + 1 + 1) _ (by norm_num)]
    rw [show (7 : ℕ) = 6 + 1 from rfl, stepRingB 6 (0 + 1 + 1 + 1) _ (by norm_num)]
    rw [show (6 : ℕ) = 5 + 1 from rfl, stepRingA 5 (0 + 1 + 1 + 1 + 1) _ (by norm_num)]
    rw [show (5 : ℕ) = 4 + 1 from rfl, stepRingB 4 (0 + 1 + 1 + 1 + 1 + 1) _ (by norm_num)]
    rw [show (4 : ℕ) = 3 + 1 from rfl, stepRingA 3 (0 + 1 + 1 + 1 + 1 + 1 + 1) _ (by norm_num)]
    rw [show (3 : ℕ) = 2 + 1 from rfl, stepRingB 2 (0 + 1 + 1 + 1 + 1 + 1 + 1 + 1) _ (by norm_num)]
    rw [show (2 : ℕ) = 1 + 1 from rfl, stepRingA 1 (0 + 1 + 1 + 1 + 1 + 1 + 1 + 1 + 1) _ (by norm_num)]
    rw [show (1 : ℕ) = 0 + 1 from rfl, stepRingB 0 (0 + 1 + 1 + 1 + 1 + 1 + 1 + 1 + 1 + 1) _ (by norm_num)]
    rw [traceRayAux]
    rfl

/-- C3 (amended): in a bounce iteration where no mirror or prism hit is found the
tracer terminates, emitting one final segment spanning the remaining budget
`1000 − traveled` only when that remaining budget is strictly positive, and
emitting nothing when the budget is exhausted; the default scene's light at
(100,300) firing along +x produces exactly one segment per wavelength, each
spanning the full maxLength of 1000, with no bounces. -/
theorem traceRay_no_hit_spec :
    (∀ (objects : List OpticObject) (i fuel : ℕ) (o d : Vector2) (len : ℝ)
        (segs : List Segment), findHit objects o d = none →
      traceRayAux objects i (fuel + 1) o d len segs =
        if 1000 - len > 0 then
          segs ++ [⟨o, add o (scale (1000 - len) d), COLORS.getD i "red"⟩]
        else segs) ∧
    computeRays defaultObjects =
      [⟨⟨100, 300⟩, ⟨1100, 300⟩, "red"⟩, ⟨⟨100, 300⟩, ⟨1100, 300⟩, "orange"⟩,
       ⟨⟨100, 300⟩, ⟨1100, 300⟩, "yellow"⟩, ⟨⟨100, 300⟩, ⟨1100, 300⟩, "green"⟩,
       ⟨⟨100, 300⟩, ⟨1100, 300⟩, "blue"⟩, ⟨⟨100, 300⟩, ⟨1100, 300⟩, "indigo"⟩,
       ⟨⟨100, 300⟩, ⟨1100, 300⟩, "violet"⟩] := by
  have hnohit : ∀ (objects : List OpticObject) (i fuel : ℕ) (o d : Vector2) (len : ℝ)
      (segs : List Segment), findHit objects o d = none →
      traceRayAux objects i (fuel + 1) o d len segs =
        if 1000 - len > 0 then
          segs ++ [⟨o, add o (scale (1000 - len) d), COLORS.getD i "red"⟩]
        else segs := by
    intro objects i fuel o d len segs h
    rw [traceRayAux, h]
  refine ⟨hnohit, ?_⟩
  have htr : ∀ j : ℕ, traceRay ⟨100, 300⟩ ⟨1, 0⟩ j defaultObjects =
      [⟨⟨100, 300⟩, ⟨1100, 300⟩, COLORS.getD j "red"⟩] := by
    intro j
    rw [traceRay, normalize_of_unit vecLen_unit_px, show (10 : ℕ) = 9 + 1 from rfl,
      hnohit defaultObjects j 9 ⟨100, 300⟩ ⟨1, 0⟩ 0 [] (findHit_default _ _)]
    rw [if_pos (by norm_num : (1000 : ℝ) - 0 > 0)]
    norm_num [add, scale, Segment.mk.injEq, Vector2.mk.injEq]
  simp only [computeRays, default_filter_light, List.foldl_cons, List.foldl_nil]
  rw [show COLORS.length = 7 from rfl, show List.range 7 = [0, 1, 2, 3, 4, 5, 6] from rfl]
  simp only [List.foldl_cons, List.foldl_nil, htr]
  rfl

/-- C3 witness: the first iteration of the default-scene trace finds no hit and
has the full budget of 1000 remaining. -/
theorem traceRay_no_hit_spec_witness :
    traceRayAux defaultObjects 0 (9 + 1) ⟨100, 300⟩ ⟨1, 0⟩ 0 [] =
      if 1000 - (0 : ℝ) > 0 then
        [] ++ [⟨⟨100, 300⟩, add ⟨100, 300⟩ (scale (1000 - 0) ⟨1, 0⟩), COLORS.getD 0 "red"⟩]
      else [] :=
  traceRay_no_hit_spec.1 defaultObjects 0 9 ⟨100, 300⟩ ⟨1, 0⟩ 0 [] (findHit_default _ _)

/-- C3 counterexample: in the single-mirror scene `farScene` the trace's first
iteration consumes the whole budget (hit at t = 1000) and its second iteration
finds no hit with remaining budget exactly 0 — contrary to the claim, that
no-hit iteration emits no final (zero-length, budget clamped to 0) segment at
all, and the whole trace is a single segment. -/
theorem traceRay_no_hit_clamp_counterexample :
    traceRay ⟨0, 0⟩ ⟨1, 0⟩ 0 farScene = [⟨⟨0, 0⟩, ⟨1000, 0⟩, "red"⟩] ∧
    findHit farScene ⟨999.9, 0⟩ ⟨-1, 0⟩ = none ∧
    traceRayAux farScene 0 (8 + 1) ⟨999.9, 0⟩ ⟨-1, 0⟩ 1000 [⟨⟨0, 0⟩, ⟨1000, 0⟩, "red"⟩] =
      [⟨⟨0, 0⟩, ⟨1000, 0⟩, "red"⟩] := by
  refine ⟨?_, findHit_far1, stepFar1 8 _⟩
  rw [traceRay, normalize_of_unit vecLen_unit_px, show (10 : ℕ) = 9 + 1 from rfl,
    stepFar0 9]
  rw [show (9 : ℕ) = 8 + 1 from rfl]
  exact stepFar1 8 _

end LightRay
